import Mathlib

/-!
Shallow embedding of the stellar-swap MCP server core: the tool dispatcher
of `src/index.ts`, the swap-data adapter `src/soroswap-client.ts`, and the
vault-data adapter `DefindexClient` (its source is reproduced in full in the
repository README).

Modelling conventions, used consistently below:

* JavaScript numbers are modelled as `Option ℚ`: `some q` is the exact
  rational value, `none` is `NaN`.  Floating-point rounding of the JS
  engine is idealised away; all the arithmetic the claims touch
  (`x * 0.12 * 0.997`, `x * apy / 100 * m`, percentage sums) is exact
  decimal arithmetic, where `ℚ` and IEEE doubles agree on every relation
  the claims state.  `NaN` propagation (`parseFloat` of a missing or
  malformed string) is modelled faithfully.
* `parseFloat` is `jsParseFloat`: skips leading spaces, optional sign,
  longest digit run, optional fraction; `NaN` (`none`) when no digit was
  consumed; trailing junk ignored.  (The exponent form and exotic
  whitespace, which no claim exercises, are not modelled.)
* `Number.prototype.toFixed(k)` is `toFixedStr k`, rendering the value
  rounded to `k` decimal places (round-half-up on the exact rational;
  `"NaN"` for `NaN`), and `toFixedQ k` is the rational the rendered
  string denotes.
* `Number.prototype.toString()` is `jsNumToString`, an exact decimal
  rendering for the terminating decimals that actually arise (fuelled
  long division; JS's shortest-round-trip printing differs only in
  trailing-zero cosmetics, which no claim inspects).
* `JSON.stringify(x, null, 2)` is `Json.render`, compact rather than
  pretty-printed, and without escaping (no payload string of this
  program contains a character that needs escaping); `undefined` object
  fields are omitted, `undefined` array elements and `NaN` become
  `null`, exactly as in JS.
* JS string truthiness (`token ? a : b`, `s || d`) is `strTruthy` /
  `jsOrStr`: `undefined` (`none`) and the empty string are falsy.
-/

/-- One digit character, for rendering numbers. -/
def digitChar (d : ℕ) : Char :=
  if d = 0 then '0' else if d = 1 then '1' else if d = 2 then '2'
  else if d = 3 then '3' else if d = 4 then '4' else if d = 5 then '5'
  else if d = 6 then '6' else if d = 7 then '7' else if d = 8 then '8'
  else if d = 9 then '9' else '*'

/-- Numeric value of a digit character. -/
def digitVal (c : Char) : ℕ := c.toNat - 48

/-- Digit characters, most significant first, folded to the number they spell. -/
def digitsToNat (ds : List Char) : ℕ := ds.foldl (fun a c => a * 10 + digitVal c) 0

/-- Decimal digits of `n`, least significant first; `fuel ≥ n` suffices. -/
def natChRev (fuel n : ℕ) : List Char :=
  match fuel, n with
  | 0, _ => []
  | _, 0 => []
  | f + 1, m + 1 => digitChar ((m + 1) % 10) :: natChRev f ((m + 1) / 10)

/-- Decimal rendering of a natural number. -/
def natStr (n : ℕ) : String := if n = 0 then "0" else String.mk (natChRev n n).reverse

/-- Exactly `k` decimal digits of `m % 10 ^ k`, most significant first
(the zero-padded fraction block of `toFixed`). -/
def kDigitChars (k m : ℕ) : List Char :=
  match k with
  | 0 => []
  | k + 1 => kDigitChars k (m / 10) ++ [digitChar (m % 10)]

/-- After the optional sign of `parseFloat`: longest digit run, optional
fraction after a dot, `NaN` when neither part has a digit. -/
def parseSigned (sgn : ℚ) (cs : List Char) : Option ℚ :=
  let ds1 := cs.takeWhile Char.isDigit
  let cs2 := cs.dropWhile Char.isDigit
  let ds2 : List Char :=
    match cs2 with
    | c :: t => if c = '.' then t.takeWhile Char.isDigit else []
    | [] => []
  if ds1.isEmpty && ds2.isEmpty then none
  else some (sgn * ((digitsToNat ds1 : ℚ) + (digitsToNat ds2 : ℚ) / (10 : ℚ) ^ ds2.length))

/-- Sign dispatch of `parseFloat`. -/
def parseDecCore (cs : List Char) : Option ℚ :=
  match cs with
  | c :: t =>
    if c = '-' then parseSigned (-1) t
    else if c = '+' then parseSigned 1 t
    else parseSigned 1 (c :: t)
  | [] => none

/-- JavaScript `parseFloat` on a string (see module conventions). -/
def jsParseFloat (s : String) : Option ℚ :=
  parseDecCore (s.toList.dropWhile (fun c => c = ' '))

/-- JavaScript `parseFloat` of a possibly-`undefined` string:
`parseFloat(undefined)` is `NaN`. -/
def jsParseFloatOpt (s : Option String) : Option ℚ :=
  match s with
  | some str => jsParseFloat str
  | none => none

/-- JS number addition (`NaN` propagates). -/
def jsAdd (a b : Option ℚ) : Option ℚ :=
  match a, b with
  | some x, some y => some (x + y)
  | _, _ => none

/-- JS number subtraction (`NaN` propagates). -/
def jsSub (a b : Option ℚ) : Option ℚ :=
  match a, b with
  | some x, some y => some (x - y)
  | _, _ => none

/-- JS number multiplication (`NaN` propagates). -/
def jsMul (a b : Option ℚ) : Option ℚ :=
  match a, b with
  | some x, some y => some (x * y)
  | _, _ => none

/-- JS number division (`NaN` propagates; division by zero, which in JS
gives an infinity, is mapped to `none` — every use below is behind a
strict-positivity guard, so the case is unreachable on the guarded paths). -/
def jsDiv (a b : Option ℚ) : Option ℚ :=
  match a, b with
  | some x, some y => if y = 0 then none else some (x / y)
  | _, _ => none

/-- JS `a >= b` on numbers (`false` when either side is `NaN`). -/
def jsGeb (a b : Option ℚ) : Bool :=
  match a, b with
  | some x, some y => decide (y ≤ x)
  | _, _ => false

/-- JS `a > 0` on numbers (`false` for `NaN`). -/
def jsGt0 (a : Option ℚ) : Bool :=
  match a with
  | some x => decide (0 < x)
  | none => false

/-- JS string truthiness of a possibly-`undefined` string: `undefined`
and `""` are falsy. -/
def strTruthy (s : Option String) : Bool :=
  match s with
  | some str => decide (str ≠ "")
  | none => false

/-- JS `s || d` on a possibly-`undefined` string. -/
def jsOrStr (s : Option String) (d : String) : String :=
  match s with
  | some str => if str = "" then d else str
  | none => d

/-- Value rounded to `k` decimal places, as `toFixed(k)` renders it
(round half up on the exact rational). -/
def toFixedQ (k : ℕ) (q : ℚ) : ℚ := ((round (q * (10 : ℚ) ^ k) : ℤ) : ℚ) / (10 : ℚ) ^ k

/-- JS `x.toFixed(k)` for `k ≥ 1`: sign, integer part, dot, `k` zero-padded
fraction digits; `"NaN"` for `NaN`. -/
def toFixedStr (k : ℕ) (q : Option ℚ) : String :=
  match q with
  | none => "NaN"
  | some x =>
    let r : ℤ := round (x * (10 : ℚ) ^ k)
    let s : ℕ := r.natAbs
    (if r < 0 then "-" else "") ++ natStr (s / 10 ^ k) ++ "." ++ String.mk (kDigitChars k (s % 10 ^ k))

/-- Fraction digits of `num / den` by long division, `fuel` bounding the
number of digits (exact for the terminating decimals that arise here). -/
def fracChars (fuel rem den : ℕ) : List Char :=
  match fuel, rem with
  | 0, _ => []
  | _, 0 => []
  | f + 1, r + 1 => digitChar ((r + 1) * 10 / den) :: fracChars f ((r + 1) * 10 % den) den

/-- JS `x.toString()` on a number (see module conventions). -/
def jsNumToString (q : Option ℚ) : String :=
  match q with
  | none => "NaN"
  | some x =>
    let n := x.num.natAbs
    let d := x.den
    let frac := fracChars 64 (n % d) d
    (if x < 0 then "-" else "") ++ natStr (n / d) ++
      (if n % d = 0 then "" else "." ++ String.mk frac)

/-- JSON values, for the payloads `JSON.stringify` serialises. -/
inductive Json where
  | null : Json
  | bool : Bool → Json
  | str : String → Json
  | num : Option ℚ → Json
  | arr : List Json → Json
  | obj : List (String × Json) → Json

mutual

/-- Compact `JSON.stringify` of a payload (module conventions: no escaping,
no pretty-printing; a `NaN` number serialises as `null` as in JS). -/
def Json.render : Json → String
  | .null => "null"
  | .bool b => if b then "true" else "false"
  | .str s => "\"" ++ s ++ "\""
  | .num q =>
    match q with
    | none => "null"
    | some x => jsNumToString (some x)
  | .arr xs => "[" ++ Json.renderList xs ++ "]"
  | .obj fs => "\x7b" ++ Json.renderObj fs ++ "\x7d"

/-- Comma-separated rendering of array elements. -/
def Json.renderList : List Json → String
  | [] => ""
  | [x] => Json.render x
  | x :: y :: xs => Json.render x ++ "," ++ Json.renderList (y :: xs)

/-- Comma-separated rendering of object fields. -/
def Json.renderObj : List (String × Json) → String
  | [] => ""
  | [(k, v)] => "\"" ++ k ++ "\":" ++ Json.render v
  | (k, v) :: f :: fs => "\"" ++ k ++ "\":" ++ Json.render v ++ "," ++ Json.renderObj (f :: fs)

end

/-- A string is a well-formed JSON document when it is the rendering of
some JSON value. -/
def IsJsonText (s : String) : Prop := ∃ j : Json, Json.render j = s

/-- An object field holding a possibly-`undefined` string:
`JSON.stringify` omits the key when the value is `undefined`. -/
def optStrField (k : String) (v : Option String) : List (String × Json) :=
  match v with
  | some s => [(k, Json.str s)]
  | none => []

/-- A possibly-`undefined` string as an array element: `JSON.stringify`
turns `undefined` array elements into `null`. -/
def optStrElem (v : Option String) : Json :=
  match v with
  | some s => Json.str s
  | none => Json.null

/-- `SoroswapToken` of `soroswap-client.ts`. -/
structure SoroswapToken where
  address : String
  symbol : String
  name : String
  decimals : ℕ
  icon : Option String := none
deriving DecidableEq

/-- `SoroswapPair` of `soroswap-client.ts`. -/
structure SoroswapPair where
  pairAddress : String
  token0 : SoroswapToken
  token1 : SoroswapToken
  reserve0 : String
  reserve1 : String
  totalSupply : String
  fee : String
  volume24h : Option String := none
  tvl : Option String := none
  apr : Option String := none
deriving DecidableEq

/-- A token descriptor inside a quote; its `address` echoes the raw
`tokenIn`/`tokenOut` argument, which can be `undefined` at runtime. -/
structure QuoteToken where
  address : Option String
  symbol : String
  name : String
  decimals : ℕ
deriving DecidableEq

/-- `SoroswapQuote` of `soroswap-client.ts`.  `amountOut` and
`minimumReceived` hold the `toFixed(6)` renderings. -/
structure SoroswapQuote where
  tokenIn : QuoteToken
  tokenOut : QuoteToken
  amountIn : Option String
  amountOut : String
  priceImpact : String
  route : List (Option String)
  slippage : String
  fee : String
  minimumReceived : String
  gasEstimate : Option String := none
deriving DecidableEq

/-- A balance entry of a Horizon account, with the fields the two
clients read. -/
structure HorizonBalance where
  asset_type : String
  balance : String
  liquidity_pool_id : String := ""
  asset_code : String := ""
  asset_issuer : Option String := none
deriving DecidableEq

/-- A Soroswap user position (`getUserPositions` returns `any[]`: the
Horizon path fills only the first two fields, the mock fills all). -/
structure SorosPosition where
  pairAddress : String
  lpTokenBalance : String
  token0 : Option String := none
  token1 : Option String := none
  shareOfPool : Option String := none
  token0Amount : Option String := none
  token1Amount : Option String := none
  value : Option String := none
  pnl : Option String := none
  pnlPercent : Option String := none
deriving DecidableEq

namespace SoroswapClient

/-- The fixed two-pair mock catalog of `getMockTokenPairs`. -/
def mockPairs : List SoroswapPair :=
  [ { pairAddress := "CDLZFC3SYJYDZT7K67VZ75HPJVIEUVNIXF47ZG2FB2RMQQAHHAGHJMUOB"
    , token0 := { address := "native", symbol := "XLM", name := "Stellar Lumens", decimals := 7 }
    , token1 := { address := "CAQCFVLOBK5GIULPNZRGATJJMIZL5BSP7X5YJNU4TKDGSR3RCNBFIW7A"
                , symbol := "USDC", name := "USD Coin", decimals := 6 }
    , reserve0 := "1000000.0000000"
    , reserve1 := "120000.000000"
    , totalSupply := "346410.1610000"
    , fee := "0.3"
    , volume24h := some "125000"
    , tvl := some "240000"
    , apr := some "12.5" }
  , { pairAddress := "CAZNWAY5GKNZUY5QFPZJQY7JXDLWNXKXFKQ3KBQPG7QJLCZ7XQMDMCGL"
    , token0 := { address := "native", symbol := "XLM", name := "Stellar Lumens", decimals := 7 }
    , token1 := { address := "CAQCFVLOBK5GIULPNZRGATJJMIZL5BSP7X5YJNU4TKDGSR3RCNBFIW7A"
                , symbol := "AQUA", name := "Aqua Token", decimals := 7 }
    , reserve0 := "800000.0000000"
    , reserve1 := "2500000.0000000"
    , totalSupply := "1414213.5620000"
    , fee := "0.3"
    , volume24h := some "85000"
    , tvl := some "170000"
    , apr := some "18.2" } ]

/-- The filter predicate of `getMockTokenPairs`: the filter token equals
either side's symbol or either side's address. -/
def pairMatchesToken (t : String) (p : SoroswapPair) : Bool :=
  p.token0.symbol = t || p.token1.symbol = t || p.token0.address = t || p.token1.address = t

/-- `SoroswapClient.getMockTokenPairs`: filter the catalog when the
token argument is truthy, else return it whole. -/
def getMockTokenPairs (token : Option String) : List SoroswapPair :=
  match token with
  | some t => if t = "" then mockPairs else mockPairs.filter (fun p => pairMatchesToken t p)
  | none => mockPairs

/-- `SoroswapClient.getTokenPairs`: primary API result when the call
succeeds (`response.data.pairs || []` is the caller-supplied list),
else the mock catalog. -/
def getTokenPairs (primary : Option (List SoroswapPair)) (token : Option String) :
    List SoroswapPair :=
  match primary with
  | some ps => ps
  | none => getMockTokenPairs token

/-- `SoroswapClient.getMockSwapQuote`: fixed XLM-to-USDC rate 0.12 with a
0.3 percent fee, minimum received further reduced by the slippage
percentage; both amounts rendered with `toFixed(6)`. -/
def getMockSwapQuote (tokenIn tokenOut amountIn : Option String) (slippage : String) :
    SoroswapQuote :=
  { tokenIn := { address := tokenIn, symbol := "XLM", name := "Stellar Lumens", decimals := 7 }
  , tokenOut := { address := tokenOut, symbol := "USDC", name := "USD Coin", decimals := 6 }
  , amountIn := amountIn
  , amountOut :=
      toFixedStr 6 (jsMul (jsMul (jsParseFloatOpt amountIn) (some (12 / 100))) (some (997 / 1000)))
  , priceImpact := "0.1"
  , route := [tokenIn, tokenOut]
  , slippage := slippage
  , fee := "0.3"
  , minimumReceived :=
      toFixedStr 6
        (jsMul (jsMul (jsMul (jsParseFloatOpt amountIn) (some (12 / 100))) (some (997 / 1000)))
          (jsSub (some 1) (jsDiv (jsParseFloat slippage) (some 100))))
  , gasEstimate := some "0.001" }

/-- `SoroswapClient.getSwapQuote`: primary API quote when the call
succeeds, else the mock quote. -/
def getSwapQuote (primary : Option SoroswapQuote) (tokenIn tokenOut amountIn : Option String)
    (slippage : String) : SoroswapQuote :=
  match primary with
  | some q => q
  | none => getMockSwapQuote tokenIn tokenOut amountIn slippage

/-- `SoroswapClient.getMockUserPositions` (the argument is unused in the
source as well). -/
def getMockUserPositions (_userAddress : Option String) : List SorosPosition :=
  [ { pairAddress := "CDLZFC3SYJYDZT7K67VZ75HPJVIEUVNIXF47ZG2FB2RMQQAHHAGHJMUOB"
    , lpTokenBalance := "1000.0000000"
    , token0 := some "XLM"
    , token1 := some "USDC"
    , shareOfPool := some "0.01"
    , token0Amount := some "8333.3333333"
    , token1Amount := some "1000.000000"
    , value := some "2000.00"
    , pnl := some "100.00"
    , pnlPercent := some "5.0" } ]

/-- `SoroswapClient.getUserPositions`: on a Horizon success, keep the
liquidity-pool-share balances and project them to slim position records;
on failure, the mock positions. -/
def getUserPositions (horizon : Option (List HorizonBalance)) (userAddress : Option String) :
    List SorosPosition :=
  match horizon with
  | some balances =>
    (balances.filter (fun b => b.asset_type = "liquidity_pool_shares")).map
      (fun b => { pairAddress := b.liquidity_pool_id, lpTokenBalance := b.balance })
  | none => getMockUserPositions userAddress

end SoroswapClient

/-- `DefindexVault` of the DeFindex client (`feeStructure` and
`performance` sub-objects flattened into fields). -/
structure DefindexVault where
  address : String
  name : String
  symbol : String
  totalAssets : String
  totalSupply : String
  apy : String
  strategy : String
  riskLevel : String
  underlyingTokens : List String
  underlyingProtocols : List String
  managementFee : String
  performanceFee : String
  perf7d : String
  perf30d : String
  perf90d : String
  perf1y : String
deriving DecidableEq

/-- `DefindexPosition` of the DeFindex client. -/
structure DefindexPosition where
  vaultAddress : String
  vaultName : String
  shares : String
  underlyingValue : String
  entryPrice : String
  currentPrice : String
  pnl : String
  pnlPercent : String
  depositedAt : String
deriving DecidableEq

/-- `DefindexAllocation` of the DeFindex client. -/
structure DefindexAllocation where
  vaultAddress : String
  vaultName : String
  allocation : String
  amount : String
  expectedApy : String
  riskLevel : String
deriving DecidableEq

/-- The `optimization` record returned by `optimizeYieldAllocation`. -/
structure Optimization where
  totalAmount : String
  riskTolerance : String
  timeHorizon : String
  recommendedAllocation : List DefindexAllocation
  expectedPortfolioApy : String
  diversificationScore : String
deriving DecidableEq

/-- The `fees` block of `getMockDepositCalculation`. -/
structure DepositFees where
  depositFee : String
  managementFee : String
  performanceFee : String
deriving DecidableEq

/-- The `calculation` record returned by `getMockDepositCalculation`. -/
structure DepositCalculation where
  vaultAddress : String
  depositAmount : String
  timeframe : String
  expectedShares : String
  projectedValue : String
  projectedYield : String
  fees : DepositFees
deriving DecidableEq

namespace DefindexClient

/-- First vault of the fixed mock catalog (`Stellar Stable Yield Vault`). -/
def stableVault : DefindexVault :=
  { address := "CBQHNAXSI55GX2GN6D67GK7BHKQKQHX4J5DYKEN6PKVP7DTCMMY7XAQD"
  , name := "Stellar Stable Yield Vault"
  , symbol := "SSYV"
  , totalAssets := "1000000.0000000"
  , totalSupply := "950000.0000000"
  , apy := "8.5"
  , strategy := "USDC-XLM Liquidity Mining on Soroswap"
  , riskLevel := "low"
  , underlyingTokens := ["USDC", "XLM"]
  , underlyingProtocols := ["Soroswap"]
  , managementFee := "1.0"
  , performanceFee := "10.0"
  , perf7d := "0.15", perf30d := "0.68", perf90d := "2.1", perf1y := "8.5" }

/-- Second vault of the fixed mock catalog (`Balanced Growth Vault`). -/
def balancedVault : DefindexVault :=
  { address := "CDLZFC3SYJYDZT7K67VZ75HPJVIEUVNIXF47ZG2FB2RMQQAHHAGHJMUOB"
  , name := "Balanced Growth Vault"
  , symbol := "BGV"
  , totalAssets := "500000.0000000"
  , totalSupply := "480000.0000000"
  , apy := "15.2"
  , strategy := "Multi-Protocol Yield Farming"
  , riskLevel := "medium"
  , underlyingTokens := ["XLM", "USDC", "AQUA"]
  , underlyingProtocols := ["Soroswap", "Stellar DEX"]
  , managementFee := "1.5"
  , performanceFee := "15.0"
  , perf7d := "0.25", perf30d := "1.2", perf90d := "3.8", perf1y := "15.2" }

/-- Third vault of the fixed mock catalog (`High Yield Vault`). -/
def highYieldVault : DefindexVault :=
  { address := "CAZNWAY5GKNZUY5QFPZJQY7JXDLWNXKXFKQ3KBQPG7QJLCZ7XQMDMCGL"
  , name := "High Yield Vault"
  , symbol := "HYV"
  , totalAssets := "250000.0000000"
  , totalSupply := "230000.0000000"
  , apy := "25.7"
  , strategy := "Leveraged Yield Farming"
  , riskLevel := "high"
  , underlyingTokens := ["XLM", "AQUA"]
  , underlyingProtocols := ["Soroswap", "Lending Protocol"]
  , managementFee := "2.0"
  , performanceFee := "20.0"
  , perf7d := "0.45", perf30d := "2.0", perf90d := "6.4", perf1y := "25.7" }

/-- `DefindexClient.getMockVaults`: the three-vault catalog, filtered by
exact risk level when that argument is truthy and by
`parseFloat(apy) >= parseFloat(minApy)` when `minApy` is truthy. -/
def getMockVaults (riskLevel minApy : Option String) : List DefindexVault :=
  let mockVaults := [stableVault, balancedVault, highYieldVault]
  let f1 :=
    match riskLevel with
    | some rl => if rl = "" then mockVaults else mockVaults.filter (fun v => v.riskLevel = rl)
    | none => mockVaults
  match minApy with
  | some ma =>
    if ma = "" then f1 else f1.filter (fun v => jsGeb (jsParseFloat v.apy) (jsParseFloat ma))
  | none => f1

/-- `DefindexClient.getAvailableVaults`: primary API result on success,
else the filtered mock catalog. -/
def getAvailableVaults (primary : Option (List DefindexVault)) (riskLevel minApy : Option String) :
    List DefindexVault :=
  match primary with
  | some vs => vs
  | none => getMockVaults riskLevel minApy

/-- `DefindexClient.getMockVaultDetails`: find the vault by address in the
mock catalog, falling back to the catalog's first vault when absent. -/
def getMockVaultDetails (vaultAddress : String) : DefindexVault :=
  match (getMockVaults none none).find? (fun v => v.address = vaultAddress) with
  | some v => v
  | none => stableVault

/-- The `apyMultiplier` of `getMockDepositCalculation`:
`timeframe === '1y' ? 1 : timeframe === '6m' ? 0.5 : 0.25`. -/
def apyMultiplier (timeframe : String) : ℚ :=
  if timeframe = "1y" then 1 else if timeframe = "6m" then 1 / 2 else 1 / 4

/-- The projected-yield number of `getMockDepositCalculation` before its
`toString()` rendering:
`parseFloat(depositAmount) * parseFloat(vault.apy) / 100 * apyMultiplier`. -/
def projectedYieldNum (vaultAddress depositAmount timeframe : String) : Option ℚ :=
  jsMul (jsDiv (jsMul (jsParseFloat depositAmount)
      (jsParseFloat (getMockVaultDetails vaultAddress).apy)) (some 100))
    (some (apyMultiplier timeframe))

/-- `DefindexClient.getMockDepositCalculation` (the `calculation` record
it wraps; numeric fields hold the `toString()` renderings). -/
def getMockDepositCalculation (vaultAddress depositAmount timeframe : String) :
    DepositCalculation :=
  let vault := getMockVaultDetails vaultAddress
  { vaultAddress := vaultAddress
  , depositAmount := depositAmount
  , timeframe := timeframe
  , expectedShares := jsNumToString (jsMul (jsParseFloat depositAmount) (some (95 / 100)))
  , projectedValue :=
      jsNumToString (jsMul (jsParseFloat depositAmount)
        (jsAdd (some 1)
          (jsMul (jsDiv (jsParseFloat vault.apy) (some 100)) (some (apyMultiplier timeframe)))))
  , projectedYield := jsNumToString (projectedYieldNum vaultAddress depositAmount timeframe)
  , fees :=
    { depositFee := "0"
    , managementFee :=
        jsNumToString (jsDiv (jsMul (jsParseFloat depositAmount)
          (jsParseFloat vault.managementFee)) (some 100))
    , performanceFee :=
        jsNumToString (jsDiv (jsMul (jsDiv (jsMul (jsParseFloat depositAmount)
          (jsParseFloat vault.apy)) (some 100)) (jsParseFloat vault.performanceFee)) (some 100)) } }

/-- `DefindexClient.getMockUserPositions` (the argument is unused in the
source as well). -/
def getMockUserPositions (_userAddress : Option String) : List DefindexPosition :=
  [ { vaultAddress := "CBQHNAXSI55GX2GN6D67GK7BHKQKQHX4J5DYKEN6PKVP7DTCMMY7XAQD"
    , vaultName := "Stellar Stable Yield Vault"
    , shares := "5000.0000000"
    , underlyingValue := "5200.0000000"
    , entryPrice := "1.0000000"
    , currentPrice := "1.0400000"
    , pnl := "200.0000000"
    , pnlPercent := "4.0"
    , depositedAt := "2024-01-01T00:00:00Z" }
  , { vaultAddress := "CDLZFC3SYJYDZT7K67VZ75HPJVIEUVNIXF47ZG2FB2RMQQAHHAGHJMUOB"
    , vaultName := "Balanced Growth Vault"
    , shares := "4500.0000000"
    , underlyingValue := "4800.0000000"
    , entryPrice := "1.0000000"
    , currentPrice := "1.0667000"
    , pnl := "300.0000000"
    , pnlPercent := "6.67"
    , depositedAt := "2024-01-15T00:00:00Z" }]

/-- `DefindexClient.getUserPositions`: API positions when that call
succeeds; else the Horizon fallback mapping custom-asset balances to
fixed-price position stand-ins; else the mock positions. -/
def getUserPositions (api : Option (List DefindexPosition)) (horizon : Option (List HorizonBalance))
    (timestamp : String) (userAddress : Option String) : List DefindexPosition :=
  match api with
  | some ps => ps
  | none =>
    match horizon with
    | some balances =>
      (balances.filter (fun b =>
          b.asset_type = "credit_alphanum4" || b.asset_type = "credit_alphanum12")).map
        (fun b =>
          { vaultAddress := jsOrStr b.asset_issuer "unknown"
          , vaultName := b.asset_code ++ " Vault"
          , shares := b.balance
          , underlyingValue := b.balance
          , entryPrice := "1.0"
          , currentPrice := "1.0"
          , pnl := "0"
          , pnlPercent := "0"
          , depositedAt := timestamp })
    | none => getMockUserPositions userAddress

/-- `DefindexClient.getMockOptimization`: the fixed-weight allocation
plans — conservative 70/30, moderate 50/50, anything else (the
`aggressive` branch) 30/40/30. -/
def getMockOptimization (totalAmount riskTolerance timeHorizon : String) : Optimization :=
  let allocations : List DefindexAllocation :=
    if riskTolerance = "conservative" then
      [ { vaultAddress := "CBQHNAXSI55GX2GN6D67GK7BHKQKQHX4J5DYKEN6PKVP7DTCMMY7XAQD"
        , vaultName := "Stellar Stable Yield Vault"
        , allocation := "70"
        , amount := jsNumToString (jsMul (jsParseFloat totalAmount) (some (7 / 10)))
        , expectedApy := "8.5"
        , riskLevel := "low" }
      , { vaultAddress := "CDLZFC3SYJYDZT7K67VZ75HPJVIEUVNIXF47ZG2FB2RMQQAHHAGHJMUOB"
        , vaultName := "Balanced Growth Vault"
        , allocation := "30"
        , amount := jsNumToString (jsMul (jsParseFloat totalAmount) (some (3 / 10)))
        , expectedApy := "15.2"
        , riskLevel := "medium" }]
    else if riskTolerance = "moderate" then
      [ { vaultAddress := "CBQHNAXSI55GX2GN6D67GK7BHKQKQHX4J5DYKEN6PKVP7DTCMMY7XAQD"
        , vaultName := "Stellar Stable Yield Vault"
        , allocation := "50"
        , amount := jsNumToString (jsMul (jsParseFloat totalAmount) (some (5 / 10)))
        , expectedApy := "8.5"
        , riskLevel := "low" }
      , { vaultAddress := "CDLZFC3SYJYDZT7K67VZ75HPJVIEUVNIXF47ZG2FB2RMQQAHHAGHJMUOB"
        , vaultName := "Balanced Growth Vault"
        , allocation := "50"
        , amount := jsNumToString (jsMul (jsParseFloat totalAmount) (some (5 / 10)))
        , expectedApy := "15.2"
        , riskLevel := "medium" }]
    else
      [ { vaultAddress := "CBQHNAXSI55GX2GN6D67GK7BHKQKQHX4J5DYKEN6PKVP7DTCMMY7XAQD"
        , vaultName := "Stellar Stable Yield Vault"
        , allocation := "30"
        , amount := jsNumToString (jsMul (jsParseFloat totalAmount) (some (3 / 10)))
        , expectedApy := "8.5"
        , riskLevel := "low" }
      , { vaultAddress := "CDLZFC3SYJYDZT7K67VZ75HPJVIEUVNIXF47ZG2FB2RMQQAHHAGHJMUOB"
        , vaultName := "Balanced Growth Vault"
        , allocation := "40"
        , amount := jsNumToString (jsMul (jsParseFloat totalAmount) (some (4 / 10)))
        , expectedApy := "15.2"
        , riskLevel := "medium" }
      , { vaultAddress := "CAZNWAY5GKNZUY5QFPZJQY7JXDLWNXKXFKQ3KBQPG7QJLCZ7XQMDMCGL"
        , vaultName := "High Yield Vault"
        , allocation := "30"
        , amount := jsNumToString (jsMul (jsParseFloat totalAmount) (some (3 / 10)))
        , expectedApy := "25.7"
        , riskLevel := "high" }]
  { totalAmount := totalAmount
  , riskTolerance := riskTolerance
  , timeHorizon := timeHorizon
  , recommendedAllocation := allocations
  , expectedPortfolioApy :=
      toFixedStr 2 (allocations.foldl
        (fun sum a =>
          jsAdd sum (jsMul (jsDiv (jsParseFloat a.allocation) (some 100))
            (jsParseFloat a.expectedApy)))
        (some 0))
  , diversificationScore := "85" }

end DefindexClient

/-- `JSON.stringify` image of a `SoroswapToken`. -/
def tokenJson (t : SoroswapToken) : Json :=
  Json.obj ([ ("address", Json.str t.address), ("symbol", Json.str t.symbol)
            , ("name", Json.str t.name), ("decimals", Json.num (some t.decimals))]
    ++ optStrField "icon" t.icon)

/-- `JSON.stringify` image of a quote-side token. -/
def quoteTokenJson (t : QuoteToken) : Json :=
  Json.obj (optStrField "address" t.address
    ++ [ ("symbol", Json.str t.symbol), ("name", Json.str t.name)
       , ("decimals", Json.num (some t.decimals))])

/-- `JSON.stringify` image of a `SoroswapPair`. -/
def pairJson (p : SoroswapPair) : Json :=
  Json.obj ([ ("pairAddress", Json.str p.pairAddress)
            , ("token0", tokenJson p.token0), ("token1", tokenJson p.token1)
            , ("reserve0", Json.str p.reserve0), ("reserve1", Json.str p.reserve1)
            , ("totalSupply", Json.str p.totalSupply), ("fee", Json.str p.fee)]
    ++ optStrField "volume24h" p.volume24h ++ optStrField "tvl" p.tvl
    ++ optStrField "apr" p.apr)

/-- `JSON.stringify` image of a `SoroswapQuote`. -/
def quoteJson (q : SoroswapQuote) : Json :=
  Json.obj ([ ("tokenIn", quoteTokenJson q.tokenIn), ("tokenOut", quoteTokenJson q.tokenOut)]
    ++ optStrField "amountIn" q.amountIn
    ++ [ ("amountOut", Json.str q.amountOut), ("priceImpact", Json.str q.priceImpact)
       , ("route", Json.arr (q.route.map optStrElem)), ("slippage", Json.str q.slippage)
       , ("fee", Json.str q.fee), ("minimumReceived", Json.str q.minimumReceived)]
    ++ optStrField "gasEstimate" q.gasEstimate)

/-- `JSON.stringify` image of a Soroswap position (fields present only on
the path that produced them, as in the source's untyped records). -/
def sorosPositionJson (p : SorosPosition) : Json :=
  Json.obj ([ ("pairAddress", Json.str p.pairAddress)]
    ++ optStrField "token0" p.token0 ++ optStrField "token1" p.token1
    ++ [("lpTokenBalance", Json.str p.lpTokenBalance)]
    ++ optStrField "shareOfPool" p.shareOfPool
    ++ optStrField "token0Amount" p.token0Amount
    ++ optStrField "token1Amount" p.token1Amount
    ++ optStrField "value" p.value ++ optStrField "pnl" p.pnl
    ++ optStrField "pnlPercent" p.pnlPercent)

/-- `JSON.stringify` image of a `DefindexVault`. -/
def defindexVaultJson (v : DefindexVault) : Json :=
  Json.obj
    [ ("address", Json.str v.address), ("name", Json.str v.name)
    , ("symbol", Json.str v.symbol), ("totalAssets", Json.str v.totalAssets)
    , ("totalSupply", Json.str v.totalSupply), ("apy", Json.str v.apy)
    , ("strategy", Json.str v.strategy), ("riskLevel", Json.str v.riskLevel)
    , ("underlyingTokens", Json.arr (v.underlyingTokens.map Json.str))
    , ("underlyingProtocols", Json.arr (v.underlyingProtocols.map Json.str))
    , ("feeStructure", Json.obj
        [ ("managementFee", Json.str v.managementFee)
        , ("performanceFee", Json.str v.performanceFee)])
    , ("performance", Json.obj
        [ ("7d", Json.str v.perf7d), ("30d", Json.str v.perf30d)
        , ("90d", Json.str v.perf90d), ("1y", Json.str v.perf1y)])]

/-- `JSON.stringify` image of a `DefindexPosition`. -/
def defindexPositionJson (p : DefindexPosition) : Json :=
  Json.obj
    [ ("vaultAddress", Json.str p.vaultAddress), ("vaultName", Json.str p.vaultName)
    , ("shares", Json.str p.shares), ("underlyingValue", Json.str p.underlyingValue)
    , ("entryPrice", Json.str p.entryPrice), ("currentPrice", Json.str p.currentPrice)
    , ("pnl", Json.str p.pnl), ("pnlPercent", Json.str p.pnlPercent)
    , ("depositedAt", Json.str p.depositedAt)]

/-- The environment a tool invocation runs in: the configured network and
clock, and the outcome of each outbound backend call (`none` is a failed
call, which the source recovers from by falling back to mock data). -/
structure Env where
  network : Option String := none
  timestamp : String := ""
  pairsApi : Option (List SoroswapPair) := none
  quoteApi : Option SoroswapQuote := none
  sorosHorizon : Option (List HorizonBalance) := none
  defiVaultsApi : Option (List DefindexVault) := none
  defiPositionsApi : Option (List DefindexPosition) := none
  defiHorizon : Option (List HorizonBalance) := none

/-- The `content[0].text` and `isError` of an MCP tool response (`isError`
absent in the source is `false` here). -/
structure ToolResult where
  text : String
  isError : Bool
deriving DecidableEq

/-- The argument mapping of a tool invocation; every field can be absent
(`args?.x as string` in the source is `undefined` at runtime then). -/
structure ToolArgs where
  token : Option String := none
  tokenIn : Option String := none
  tokenOut : Option String := none
  amountIn : Option String := none
  slippage : Option String := none
  pairAddress : Option String := none
  tokenAddress : Option String := none
  baseCurrency : Option String := none
  riskLevel : Option String := none
  minApy : Option String := none
  vaultAddress : Option String := none
  totalAmount : Option String := none
  riskTolerance : Option String := none
  timeHorizon : Option String := none
  userAddress : Option String := none
  includeRecommendations : Option Bool := none

namespace StellarSwapMCPServer

/-- `getSoroswapTokenPairs` of `index.ts` (its catch branch is dead on this
typed model: the client never throws, it falls back to mock data itself). -/
def getSoroswapTokenPairs (env : Env) (token : Option String) : String :=
  let pairs := SoroswapClient.getTokenPairs env.pairsApi token
  let totalTvl := pairs.foldl (fun sum p => jsAdd sum (jsParseFloat (jsOrStr p.tvl "0"))) (some 0)
  Json.render (Json.obj
    [ ("pairs", Json.arr (pairs.map pairJson))
    , ("total", Json.num (some pairs.length))
    , ("totalTvl", Json.str (jsNumToString totalTvl))
    , ("network", Json.str (jsOrStr env.network "testnet"))
    , ("timestamp", Json.str env.timestamp)])

/-- `getSoroswapSwapQuote` of `index.ts`. -/
def getSoroswapSwapQuote (env : Env) (tokenIn tokenOut amountIn : Option String)
    (slippage : String) : String :=
  let quote := SoroswapClient.getSwapQuote env.quoteApi tokenIn tokenOut amountIn slippage
  Json.render (Json.obj
    [ ("quote", quoteJson quote)
    , ("network", Json.str (jsOrStr env.network "testnet"))
    , ("timestamp", Json.str env.timestamp)])

/-- One record of the pool catalog inlined in `getSoroswapLiquidityPools`
of `index.ts`. -/
structure IndexMockPool where
  address : String
  token0 : String
  token1 : String
  reserve0 : String
  reserve1 : String
  totalSupply : String
  apr : String
  volume24h : String
  fees24h : String
deriving DecidableEq

/-- `JSON.stringify` image of an inline pool record. -/
def indexMockPoolJson (p : IndexMockPool) : Json :=
  Json.obj
    [ ("address", Json.str p.address), ("token0", Json.str p.token0)
    , ("token1", Json.str p.token1), ("reserve0", Json.str p.reserve0)
    , ("reserve1", Json.str p.reserve1), ("totalSupply", Json.str p.totalSupply)
    , ("apr", Json.str p.apr), ("volume24h", Json.str p.volume24h)
    , ("fees24h", Json.str p.fees24h)]

/-- The inline pool catalog of `getSoroswapLiquidityPools` of `index.ts`. -/
def indexMockPools : List IndexMockPool :=
  [ { address := "0x123...abc", token0 := "XLM", token1 := "USDC"
    , reserve0 := "1000000", reserve1 := "500000", totalSupply := "707106"
    , apr := "12.5", volume24h := "125000", fees24h := "375" }
  , { address := "0x456...def", token0 := "XLM", token1 := "AQUA"
    , reserve0 := "800000", reserve1 := "200000", totalSupply := "400000"
    , apr := "18.2", volume24h := "85000", fees24h := "255" }]

/-- `getSoroswapLiquidityPools` of `index.ts`: a truthy pair address
selects the single matching pool (`find`, whose miss is `undefined` and
drops the key), else the whole catalog. -/
def getSoroswapLiquidityPools (pairAddress : Option String) : String :=
  let poolsField : List (String × Json) :=
    if strTruthy pairAddress then
      match indexMockPools.find? (fun p => some p.address = pairAddress) with
      | some p => [("pools", indexMockPoolJson p)]
      | none => []
    else [("pools", Json.arr (indexMockPools.map indexMockPoolJson))]
  Json.render (Json.obj (poolsField
    ++ [("message", Json.str "Mock data - In production, this would fetch from Soroswap contracts")]))

/-- `getSoroswapTokenPrice` of `index.ts`: the inline price table
(`mockPrices[tokenAddress] || 0`). -/
def getSoroswapTokenPrice (tokenAddress : Option String) (baseCurrency : String)
    (timestamp : String) : String :=
  let price : ℚ :=
    if tokenAddress = some "XLM" then 12 / 100
    else if tokenAddress = some "USDC" then 1
    else if tokenAddress = some "AQUA" then 8 / 100
    else 0
  Json.render (Json.obj (optStrField "token" tokenAddress
    ++ [ ("price", Json.num (some price))
       , ("baseCurrency", Json.str baseCurrency)
       , ("change24h", Json.str "2.5")
       , ("volume24h", Json.str "125000")
       , ("timestamp", Json.str timestamp)
       , ("message", Json.str "Mock data - In production, this would fetch from price oracles")]))

/-- `getDefindexVaults` of `index.ts` (catch branch dead as above). -/
def getDefindexVaults (env : Env) (riskLevel minApy : Option String) : String :=
  let vaults := DefindexClient.getAvailableVaults env.defiVaultsApi riskLevel minApy
  let totalTvl := vaults.foldl (fun sum v => jsAdd sum (jsParseFloat v.totalAssets)) (some 0)
  Json.render (Json.obj
    [ ("vaults", Json.arr (vaults.map defindexVaultJson))
    , ("total", Json.num (some vaults.length))
    , ("totalTvl", Json.str (jsNumToString totalTvl))
    , ("network", Json.str (jsOrStr env.network "testnet"))
    , ("timestamp", Json.str env.timestamp)])

/-- `getDefindexVaultDetails` of `index.ts`: a single inline mock vault
whose `address` merely echoes the argument. -/
def getDefindexVaultDetails (vaultAddress : Option String) : String :=
  Json.render (Json.obj
    [ ("vault", Json.obj (optStrField "address" vaultAddress
        ++ [ ("name", Json.str "Stable Yield Vault"), ("symbol", Json.str "SYV")
           , ("totalAssets", Json.str "1000000"), ("totalSupply", Json.str "950000")
           , ("apy", Json.str "8.5")
           , ("strategy", Json.str "USDC-XLM Liquidity Mining")
           , ("riskLevel", Json.str "low")
           , ("underlyingTokens", Json.arr [Json.str "USDC", Json.str "XLM"])
           , ("underlyingProtocols", Json.arr [Json.str "Soroswap"])
           , ("feeStructure", Json.obj
               [("managementFee", Json.str "1.0"), ("performanceFee", Json.str "10.0")])
           , ("performance", Json.obj
               [ ("7d", Json.str "0.15"), ("30d", Json.str "0.68")
               , ("90d", Json.str "2.1"), ("1y", Json.str "8.5")])]))
    , ("message", Json.str "Mock data - In production, this would fetch from DeFindex vault contract")])

/-- `optimizeDefindexAllocation` of `index.ts`: the dispatcher's own
two-vault inline plan, branching only on `riskTolerance === 'conservative'`. -/
def optimizeDefindexAllocation (totalAmount riskTolerance : Option String)
    (timeHorizon : String) : String :=
  let conservative := riskTolerance = some "conservative"
  Json.render (Json.obj
    [ ("optimization", Json.obj (optStrField "totalAmount" totalAmount
        ++ optStrField "riskTolerance" riskTolerance
        ++ [ ("timeHorizon", Json.str timeHorizon)
           , ("recommendedAllocation", Json.arr
               [ Json.obj
                   [ ("vaultAddress", Json.str "0xabc123...")
                   , ("vaultName", Json.str "Stable Yield Vault")
                   , ("allocation", Json.str (if conservative then "70" else "50"))
                   , ("amount", Json.str (jsNumToString (jsMul (jsParseFloatOpt totalAmount)
                       (some (if conservative then 7 / 10 else 5 / 10)))))
                   , ("expectedApy", Json.str "8.5")
                   , ("riskLevel", Json.str "low")]
               , Json.obj
                   [ ("vaultAddress", Json.str "0xdef456...")
                   , ("vaultName", Json.str "Balanced Growth Vault")
                   , ("allocation", Json.str (if conservative then "30" else "50"))
                   , ("amount", Json.str (jsNumToString (jsMul (jsParseFloatOpt totalAmount)
                       (some (if conservative then 3 / 10 else 5 / 10)))))
                   , ("expectedApy", Json.str "15.2")
                   , ("riskLevel", Json.str "medium")]])
           , ("expectedPortfolioApy", Json.str (if conservative then "10.51" else "11.85"))
           , ("diversificationScore", Json.str "85")]))
    , ("message", Json.str "Mock data - In production, this would use advanced optimization algorithms")])

/-- The portfolio summary block computed by `getCombinedPortfolioAnalysis`
of `index.ts` from the two position lists. -/
structure PortfolioSummary where
  soroswapValue : Option ℚ
  defindexValue : Option ℚ
  totalValue : Option ℚ
  totalPnl : Option ℚ
  totalPnlPercent : String
deriving DecidableEq

/-- The summary arithmetic of `getCombinedPortfolioAnalysis`: value and
PnL sums over both position lists, and the guarded
`totalValue > 0 ? (totalPnl / totalValue * 100).toFixed(2) : '0'`. -/
def combinedSummary (sps : List SorosPosition) (dps : List DefindexPosition) :
    PortfolioSummary :=
  let soroswapValue := sps.foldl (fun sum p => jsAdd sum (jsParseFloat (jsOrStr p.value "0"))) (some 0)
  let defindexValue := dps.foldl (fun sum p => jsAdd sum (jsParseFloat p.underlyingValue)) (some 0)
  let totalValue := jsAdd soroswapValue defindexValue
  let soroswapPnl := sps.foldl (fun sum p => jsAdd sum (jsParseFloat (jsOrStr p.pnl "0"))) (some 0)
  let defindexPnl := dps.foldl (fun sum p => jsAdd sum (jsParseFloat p.pnl)) (some 0)
  let totalPnl := jsAdd soroswapPnl defindexPnl
  { soroswapValue := soroswapValue
  , defindexValue := defindexValue
  , totalValue := totalValue
  , totalPnl := totalPnl
  , totalPnlPercent :=
      if jsGt0 totalValue then toFixedStr 2 (jsMul (jsDiv totalPnl totalValue) (some 100))
      else "0" }

/-- `getCombinedPortfolioAnalysis` of `index.ts`: fetch both position
lists (each client applies its own fallbacks), sum them into the summary,
and append the fixed recommendation list when the flag is set. -/
def getCombinedPortfolioAnalysis (env : Env) (userAddress : Option String)
    (includeRecommendations : Bool) : String :=
  let sps := SoroswapClient.getUserPositions env.sorosHorizon userAddress
  let dps := DefindexClient.getUserPositions env.defiPositionsApi env.defiHorizon
    env.timestamp userAddress
  let s := combinedSummary sps dps
  Json.render (Json.obj
    [ ("analysis", Json.obj (optStrField "userAddress" userAddress
        ++ [ ("summary", Json.obj
               [ ("totalValue", Json.str (jsNumToString s.totalValue))
               , ("soroswapValue", Json.str (jsNumToString s.soroswapValue))
               , ("defindexValue", Json.str (jsNumToString s.defindexValue))
               , ("totalPnl", Json.str (jsNumToString s.totalPnl))
               , ("totalPnlPercent", Json.str s.totalPnlPercent)])
           , ("soroswapPositions", Json.arr (sps.map sorosPositionJson))
           , ("defindexPositions", Json.arr (dps.map defindexPositionJson))
           , ("riskMetrics", Json.obj
               [ ("portfolioRisk", Json.str "medium")
               , ("diversificationScore", Json.str "78")
               , ("concentrationRisk", Json.str "low")])]
        ++ (if includeRecommendations then
              [("recommendations", Json.arr
                [ Json.obj
                    [ ("type", Json.str "rebalancing")
                    , ("description", Json.str "Consider rebalancing towards more DeFindex positions for better yield")
                    , ("impact", Json.str "Potential 2.5% APY increase")]
                , Json.obj
                    [ ("type", Json.str "diversification")
                    , ("description", Json.str "Add exposure to high-yield DeFindex vault for better returns")
                    , ("impact", Json.str "Improved risk-adjusted returns")]])]
            else [])))
    , ("network", Json.str (jsOrStr env.network "testnet"))
    , ("timestamp", Json.str env.timestamp)])

/-- The eight tool names the `CallToolRequestSchema` handler recognises,
in switch order. -/
def toolNames : List String :=
  [ "soroswap_get_token_pairs", "soroswap_get_swap_quote", "soroswap_get_liquidity_pools"
  , "soroswap_get_token_price", "defindex_get_vaults", "defindex_get_vault_details"
  , "defindex_optimize_allocation", "combined_portfolio_analysis" ]

/-- The `CallToolRequestSchema` handler of `index.ts`: dispatch on the
tool name, applying the source's argument defaults; the default branch
throws `Unknown tool` which the surrounding catch turns into an error
result, so no exception escapes. -/
def invoke (env : Env) (name : String) (args : ToolArgs) : ToolResult :=
  if name = "soroswap_get_token_pairs" then
    { text := getSoroswapTokenPairs env args.token, isError := false }
  else if name = "soroswap_get_swap_quote" then
    { text := getSoroswapSwapQuote env args.tokenIn args.tokenOut args.amountIn
        (jsOrStr args.slippage "0.5"), isError := false }
  else if name = "soroswap_get_liquidity_pools" then
    { text := getSoroswapLiquidityPools args.pairAddress, isError := false }
  else if name = "soroswap_get_token_price" then
    { text := getSoroswapTokenPrice args.tokenAddress (jsOrStr args.baseCurrency "USD")
        env.timestamp, isError := false }
  else if name = "defindex_get_vaults" then
    { text := getDefindexVaults env args.riskLevel args.minApy, isError := false }
  else if name = "defindex_get_vault_details" then
    { text := getDefindexVaultDetails args.vaultAddress, isError := false }
  else if name = "defindex_optimize_allocation" then
    { text := optimizeDefindexAllocation args.totalAmount args.riskTolerance
        (jsOrStr args.timeHorizon "1y"), isError := false }
  else if name = "combined_portfolio_analysis" then
    { text := getCombinedPortfolioAnalysis env args.userAddress
        (decide (args.includeRecommendations ≠ some false)), isError := false }
  else
    { text := "Error: Unknown tool: " ++ name, isError := true }

end StellarSwapMCPServer

/-! Arithmetic facts about the digit and parsing machinery, building up to
the round-trip of `parseFloat` over `toFixed` output. -/

theorem digitChar_isDigit {d : ℕ} (h : d < 10) : (digitChar d).isDigit = true := by
  interval_cases d <;> decide

theorem digitVal_digitChar {d : ℕ} (h : d < 10) : digitVal (digitChar d) = d := by
  interval_cases d <;> decide

theorem digitsToNat_append (xs : List Char) (c : Char) :
    digitsToNat (xs ++ [c]) = digitsToNat xs * 10 + digitVal c := by
  simp [digitsToNat, List.foldl_append]

theorem digitsToNat_natChRev : ∀ fuel n : ℕ, n ≤ fuel →
    digitsToNat (natChRev fuel n).reverse = n := by
  intro fuel
  induction fuel with
  | zero =>
    intro n hn
    interval_cases n
    simp [natChRev, digitsToNat]
  | succ f ih =>
    intro n hn
    match n with
    | 0 => simp [natChRev, digitsToNat]
    | m + 1 =>
      have hdiv : (m + 1) / 10 ≤ f := by
        have := Nat.div_lt_self (Nat.succ_pos m) (by norm_num : 1 < 10)
        omega
      have hmod : (m + 1) % 10 < 10 := Nat.mod_lt _ (by norm_num)
      calc digitsToNat (natChRev (f + 1) (m + 1)).reverse
          = digitsToNat ((natChRev f ((m + 1) / 10)).reverse ++ [digitChar ((m + 1) % 10)]) := by
            simp [natChRev]
        _ = digitsToNat (natChRev f ((m + 1) / 10)).reverse * 10 + digitVal (digitChar ((m + 1) % 10)) :=
            digitsToNat_append _ _
        _ = (m + 1) / 10 * 10 + (m + 1) % 10 := by rw [ih _ hdiv, digitVal_digitChar hmod]
        _ = m + 1 := by omega

theorem natChRev_isDigit : ∀ fuel n : ℕ, ∀ c ∈ natChRev fuel n, c.isDigit = true := by
  intro fuel
  induction fuel with
  | zero => intro n c hc; simp [natChRev] at hc
  | succ f ih =>
    intro n c hc
    match n with
    | 0 => simp [natChRev] at hc
    | m + 1 =>
      simp only [natChRev, List.mem_cons] at hc
      rcases hc with rfl | hc
      · exact digitChar_isDigit (Nat.mod_lt _ (by norm_num))
      · exact ih _ _ hc

theorem natStr_toList_digits (n : ℕ) : ∀ c ∈ (natStr n).toList, c.isDigit = true := by
  intro c hc
  unfold natStr at hc
  by_cases h0 : n = 0
  · simp [h0] at hc
    simp [hc]
  · simp [h0] at hc
    exact natChRev_isDigit n n c hc

theorem digitsToNat_natStr (n : ℕ) : digitsToNat (natStr n).toList = n := by
  unfold natStr
  by_cases h0 : n = 0
  · subst h0; decide
  · simp only [h0, if_false]
    exact digitsToNat_natChRev n n le_rfl

theorem natStr_toList_ne_nil (n : ℕ) : (natStr n).toList ≠ [] := by
  unfold natStr
  by_cases h0 : n = 0
  · simp [h0]
  · simp only [h0, if_false]
    match n, h0 with
    | m + 1, _ =>
      simp [natChRev]

theorem length_kDigitChars : ∀ k m : ℕ, (kDigitChars k m).length = k := by
  intro k
  induction k with
  | zero => intro m; simp [kDigitChars]
  | succ j ih => intro m; simp [kDigitChars, ih]

theorem kDigitChars_isDigit : ∀ k m : ℕ, ∀ c ∈ kDigitChars k m, c.isDigit = true := by
  intro k
  induction k with
  | zero => intro m c hc; simp [kDigitChars] at hc
  | succ j ih =>
    intro m c hc
    simp only [kDigitChars, List.mem_append, List.mem_singleton] at hc
    rcases hc with hc | rfl
    · exact ih _ _ hc
    · exact digitChar_isDigit (Nat.mod_lt _ (by norm_num))

theorem digitsToNat_kDigitChars : ∀ k m : ℕ, digitsToNat (kDigitChars k m) = m % 10 ^ k := by
  intro k
  induction k with
  | zero => intro m; simp [kDigitChars, digitsToNat, Nat.mod_one]
  | succ j ih =>
    intro m
    have hmod : m % 10 < 10 := Nat.mod_lt _ (by norm_num)
    calc digitsToNat (kDigitChars j (m / 10) ++ [digitChar (m % 10)])
        = digitsToNat (kDigitChars j (m / 10)) * 10 + digitVal (digitChar (m % 10)) :=
          digitsToNat_append _ _
      _ = m / 10 % 10 ^ j * 10 + m % 10 := by rw [ih, digitVal_digitChar hmod]
      _ = m % 10 ^ (j + 1) := by
          have h2 : (10 : ℕ) ^ (j + 1) = 10 * 10 ^ j := by ring
          rw [h2, Nat.mod_mul]
          omega

theorem takeWhile_all {p : Char → Bool} : ∀ l : List Char, (∀ x ∈ l, p x = true) →
    l.takeWhile p = l := by
  intro l
  induction l with
  | nil => intro _; rfl
  | cons c t ih =>
    intro h
    have hc := h c (List.mem_cons_self c t)
    simp [List.takeWhile_cons, hc, ih fun x hx => h x (List.mem_cons_of_mem c hx)]

theorem takeWhile_append_stop {p : Char → Bool} (l1 l2 : List Char) (c : Char)
    (h1 : ∀ x ∈ l1, p x = true) (h2 : p c = false) :
    (l1 ++ c :: l2).takeWhile p = l1 := by
  induction l1 with
  | nil => simp [List.takeWhile_cons, h2]
  | cons d t ih =>
    have hd := h1 d (List.mem_cons_self d t)
    simp [List.takeWhile_cons, hd]
    exact ih fun x hx => h1 x (List.mem_cons_of_mem d hx)

theorem dropWhile_append_stop {p : Char → Bool} (l1 l2 : List Char) (c : Char)
    (h1 : ∀ x ∈ l1, p x = true) (h2 : p c = false) :
    (l1 ++ c :: l2).dropWhile p = c :: l2 := by
  induction l1 with
  | nil => simp [List.dropWhile_cons, h2]
  | cons d t ih =>
    have hd := h1 d (List.mem_cons_self d t)
    simp [List.dropWhile_cons, hd]
    exact ih fun x hx => h1 x (List.mem_cons_of_mem d hx)

theorem isDigit_not_special {c : Char} (h : c.isDigit = true) :
    c ≠ '-' ∧ c ≠ '+' ∧ c ≠ ' ' ∧ c ≠ '.' := by
  refine ⟨?_, ?_, ?_, ?_⟩ <;> intro h2 <;> subst h2 <;> exact absurd h (by decide)

theorem str_toList_append (a b : String) : (a ++ b).toList = a.toList ++ b.toList := by
  cases a
  cases b
  rfl

theorem parseDecCore_cons (c : Char) (t : List Char) :
    parseDecCore (c :: t) =
      if c = '-' then parseSigned (-1) t
      else if c = '+' then parseSigned 1 t
      else parseSigned 1 (c :: t) := rfl

theorem parseSigned_digits (sgn : ℚ) (l1 l2 : List Char)
    (h1 : ∀ x ∈ l1, x.isDigit = true) (h2 : ∀ x ∈ l2, x.isDigit = true) (hne : l1 ≠ []) :
    parseSigned sgn (l1 ++ '.' :: l2) =
      some (sgn * ((digitsToNat l1 : ℚ) + (digitsToNat l2 : ℚ) / (10 : ℚ) ^ l2.length)) := by
  cases l1 with
  | nil => exact absurd rfl hne
  | cons c t =>
    have hdot : ('.').isDigit = false := by decide
    unfold parseSigned
    rw [takeWhile_append_stop (c :: t) l2 '.' h1 hdot,
      dropWhile_append_stop (c :: t) l2 '.' h1 hdot]
    simp only [if_pos rfl, takeWhile_all l2 h2, List.isEmpty_cons, Bool.false_and,
      Bool.false_eq_true, if_false]
    simp

theorem parseDecCore_digits_pos (l1 l2 : List Char)
    (h1 : ∀ x ∈ l1, x.isDigit = true) (h2 : ∀ x ∈ l2, x.isDigit = true) (hne : l1 ≠ []) :
    parseDecCore (l1 ++ '.' :: l2) =
      some ((digitsToNat l1 : ℚ) + (digitsToNat l2 : ℚ) / (10 : ℚ) ^ l2.length) := by
  cases l1 with
  | nil => exact absurd rfl hne
  | cons c t =>
    have hc := h1 c (List.mem_cons_self c t)
    obtain ⟨hm, hp, _, _⟩ := isDigit_not_special hc
    show parseDecCore (c :: (t ++ '.' :: l2)) = _
    rw [parseDecCore_cons, if_neg hm, if_neg hp]
    have := parseSigned_digits 1 (c :: t) l2 h1 h2 hne
    rw [List.cons_append] at this
    rw [this, one_mul]

theorem parseDecCore_digits_neg (l1 l2 : List Char)
    (h1 : ∀ x ∈ l1, x.isDigit = true) (h2 : ∀ x ∈ l2, x.isDigit = true) (hne : l1 ≠ []) :
    parseDecCore ('-' :: (l1 ++ '.' :: l2)) =
      some (-((digitsToNat l1 : ℚ) + (digitsToNat l2 : ℚ) / (10 : ℚ) ^ l2.length)) := by
  rw [parseDecCore_cons, if_pos rfl, parseSigned_digits (-1) l1 l2 h1 h2 hne, neg_one_mul]

theorem dropWhile_space_of_head_not_space (c : Char) (t : List Char) (hc : c ≠ ' ') :
    (c :: t).dropWhile (fun x => x = ' ') = c :: t := by
  simp [List.dropWhile_cons, hc]

theorem nat_div_mod_cast_q (s k : ℕ) :
    ((s / 10 ^ k : ℕ) : ℚ) + ((s % 10 ^ k : ℕ) : ℚ) / (10 : ℚ) ^ k = (s : ℚ) / (10 : ℚ) ^ k := by
  have h10 : ((10 : ℚ) ^ k) ≠ 0 := by positivity
  have hsdm : 10 ^ k * (s / 10 ^ k) + s % 10 ^ k = s := Nat.div_add_mod s (10 ^ k)
  field_simp
  have := congrArg (fun n : ℕ => (n : ℚ)) hsdm
  push_cast at this
  linarith

theorem jsParseFloat_toFixedStr (k : ℕ) (x : Option ℚ) :
    jsParseFloat (toFixedStr k x) = Option.map (toFixedQ k) x := by
  cases x with
  | none =>
    show jsParseFloat "NaN" = none
    decide
  | some q =>
    simp only [toFixedStr, Option.map]
    set r : ℤ := round (q * (10 : ℚ) ^ k) with hr_def
    set s : ℕ := r.natAbs with hs_def
    have hds : ∀ c ∈ (natStr (s / 10 ^ k)).toList, c.isDigit = true :=
      natStr_toList_digits (s / 10 ^ k)
    have hkd : ∀ c ∈ kDigitChars k (s % 10 ^ k), c.isDigit = true :=
      kDigitChars_isDigit k (s % 10 ^ k)
    have hne := natStr_toList_ne_nil (s / 10 ^ k)
    have hval : digitsToNat (natStr (s / 10 ^ k)).toList = s / 10 ^ k :=
      digitsToNat_natStr (s / 10 ^ k)
    have hkval : digitsToNat (kDigitChars k (s % 10 ^ k)) = s % 10 ^ k := by
      rw [digitsToNat_kDigitChars]
      exact Nat.mod_eq_of_lt (Nat.mod_lt _ (by positivity))
    have hklen : (kDigitChars k (s % 10 ^ k)).length = k := length_kDigitChars k _
    have htQ : (toFixedQ k q) = (r : ℚ) / (10 : ℚ) ^ k := rfl
    by_cases hneg : r < 0
    · have hlist : ((if r < 0 then "-" else "") ++ natStr (s / 10 ^ k) ++ "." ++
          String.mk (kDigitChars k (s % 10 ^ k))).toList =
          '-' :: ((natStr (s / 10 ^ k)).toList ++ '.' :: kDigitChars k (s % 10 ^ k)) := by
        rw [if_pos hneg]
        rw [str_toList_append, str_toList_append, str_toList_append]
        simp
      unfold jsParseFloat
      rw [hlist, dropWhile_space_of_head_not_space '-' _ (by decide),
        parseDecCore_digits_neg _ _ hds hkd hne, hval, hkval, hklen]
      have hsr : (s : ℤ) = -r := by
        rw [hs_def]
        omega
      have hsq : (s : ℚ) = -(r : ℚ) := by exact_mod_cast congrArg (fun z : ℤ => (z : ℚ)) hsr
      rw [htQ]
      congr 1
      rw [nat_div_mod_cast_q s k, hsq]
      ring
    · have hlist : ((if r < 0 then "-" else "") ++ natStr (s / 10 ^ k) ++ "." ++
          String.mk (kDigitChars k (s % 10 ^ k))).toList =
          (natStr (s / 10 ^ k)).toList ++ '.' :: kDigitChars k (s % 10 ^ k) := by
        rw [if_neg hneg]
        rw [str_toList_append, str_toList_append, str_toList_append]
        simp
      obtain ⟨c, t, hct⟩ : ∃ c t, (natStr (s / 10 ^ k)).toList = c :: t := by
        cases hh : (natStr (s / 10 ^ k)).toList with
        | nil => exact absurd hh hne
        | cons c t => exact ⟨c, t, rfl⟩
      have hcd : c.isDigit = true := hds c (by rw [hct]; exact List.mem_cons_self c t)
      obtain ⟨_, _, hcs, _⟩ := isDigit_not_special hcd
      unfold jsParseFloat
      rw [hlist, hct, List.cons_append, dropWhile_space_of_head_not_space c _ hcs,
        ← List.cons_append, ← hct, parseDecCore_digits_pos _ _ hds hkd hne,
        hval, hkval, hklen]
      have hsr : (s : ℤ) = r := by
        rw [hs_def]
        omega
      have hsq : (s : ℚ) = (r : ℚ) := by exact_mod_cast congrArg (fun z : ℤ => (z : ℚ)) hsr
      rw [htQ]
      congr 1
      rw [nat_div_mod_cast_q s k, hsq]

theorem round_mono_q {x y : ℚ} (h : x ≤ y) : round x ≤ round y := by
  rw [round_eq, round_eq]
  exact Int.floor_le_floor (by linarith)

theorem toFixedQ_mono (k : ℕ) {x y : ℚ} (h : x ≤ y) : toFixedQ k x ≤ toFixedQ k y := by
  unfold toFixedQ
  have h10 : (0 : ℚ) < (10 : ℚ) ^ k := by positivity
  have hr := round_mono_q (x := x * (10 : ℚ) ^ k) (y := y * (10 : ℚ) ^ k) (by nlinarith)
  gcongr

/-- C3: on the mock path, `optimizeYieldAllocation` returns for
`aggressive` exactly the three allocations 30/40/30 over the low-, medium-
and high-risk catalog vaults, for `conservative` 70/30 over low/medium, and
for `moderate` 50/50 over low/medium. -/
theorem getMockOptimization_fixed_weights (totalAmount timeHorizon : String) :
    ((DefindexClient.getMockOptimization totalAmount "aggressive" timeHorizon).recommendedAllocation.map
        (fun a => (a.vaultName, a.allocation, a.riskLevel)) =
      [ ("Stellar Stable Yield Vault", "30", "low"), ("Balanced Growth Vault", "40", "medium")
      , ("High Yield Vault", "30", "high")])
    ∧ ((DefindexClient.getMockOptimization totalAmount "conservative" timeHorizon).recommendedAllocation.map
        (fun a => (a.vaultName, a.allocation, a.riskLevel)) =
      [("Stellar Stable Yield Vault", "70", "low"), ("Balanced Growth Vault", "30", "medium")])
    ∧ ((DefindexClient.getMockOptimization totalAmount "moderate" timeHorizon).recommendedAllocation.map
        (fun a => (a.vaultName, a.allocation, a.riskLevel)) =
      [("Stellar Stable Yield Vault", "50", "low"), ("Balanced Growth Vault", "50", "medium")]) := by
  refine ⟨?_, ?_, ?_⟩ <;> simp +decide [DefindexClient.getMockOptimization]

/-- C4: for each of the three documented risk tolerances and every total
amount, the allocation percentages of the mock optimization sum to
exactly 100. -/
theorem getMockOptimization_alloc_sum (totalAmount timeHorizon rt : String)
    (h : rt = "conservative" ∨ rt = "moderate" ∨ rt = "aggressive") :
    ((DefindexClient.getMockOptimization totalAmount rt timeHorizon).recommendedAllocation.map
        (fun a => jsParseFloat a.allocation)).foldl jsAdd (some 0) = some 100 := by
  rcases h with rfl | rfl | rfl <;>
    · simp +decide [DefindexClient.getMockOptimization, jsAdd, jsParseFloat, parseDecCore,
        parseSigned, digitsToNat, digitVal]
      norm_num

/-- C4 witness: the conservative split at a concrete amount sums to 100. -/
theorem getMockOptimization_alloc_sum_witness :
    ((DefindexClient.getMockOptimization "10000" "conservative" "1y").recommendedAllocation.map
        (fun a => jsParseFloat a.allocation)).foldl jsAdd (some 0) = some 100 :=
  getMockOptimization_alloc_sum "10000" "1y" "conservative" (Or.inl rfl)

/-- C10: the mock optimization never rejects a risk tolerance: any string
other than `conservative` and `moderate` (the empty string included) gets
the aggressive-branch allocation list. -/
theorem getMockOptimization_default_aggressive (totalAmount timeHorizon rt : String)
    (h1 : rt ≠ "conservative") (h2 : rt ≠ "moderate") :
    (DefindexClient.getMockOptimization totalAmount rt timeHorizon).recommendedAllocation =
      (DefindexClient.getMockOptimization totalAmount "aggressive" timeHorizon).recommendedAllocation := by
  simp +decide [DefindexClient.getMockOptimization, h1, h2]

/-- C10 witness: the empty risk tolerance gets the aggressive plan. -/
theorem getMockOptimization_default_aggressive_witness :
    (DefindexClient.getMockOptimization "1000" "" "1y").recommendedAllocation =
      (DefindexClient.getMockOptimization "1000" "aggressive" "1y").recommendedAllocation :=
  getMockOptimization_default_aggressive "1000" "1y" "" (by decide) (by decide)

/-- C7: `getVaultDetails` on the mock path does not fail on an unknown
vault address: it returns the catalog's first vault, the low-risk
`Stellar Stable Yield Vault`. -/
theorem getMockVaultDetails_default_first (va : String)
    (h : ∀ v ∈ DefindexClient.getMockVaults none none, v.address ≠ va) :
    DefindexClient.getMockVaultDetails va = DefindexClient.stableVault ∧
      DefindexClient.stableVault.name = "Stellar Stable Yield Vault" ∧
      DefindexClient.stableVault.riskLevel = "low" := by
  refine ⟨?_, rfl, rfl⟩
  have hf : (DefindexClient.getMockVaults none none).find? (fun v => v.address = va) = none := by
    rw [List.find?_eq_none]
    intro v hv
    simp [h v hv]
  unfold DefindexClient.getMockVaultDetails
  rw [hf]

/-- C7 witness: a concrete address outside the catalog gets the first
vault. -/
theorem getMockVaultDetails_default_first_witness :
    DefindexClient.getMockVaultDetails "NOT_A_VAULT" = DefindexClient.stableVault ∧
      DefindexClient.stableVault.name = "Stellar Stable Yield Vault" ∧
      DefindexClient.stableVault.riskLevel = "low" :=
  getMockVaultDetails_default_first "NOT_A_VAULT" (by decide)

/-- C8, corrected part: the claim fails at the empty-string filter token —
JS string truthiness skips the filter, so the whole catalog is returned
although no pair matches the empty token. -/
theorem getMockTokenPairs_empty_filter_fails :
    SoroswapClient.getMockTokenPairs (some "") ≠
      (SoroswapClient.getMockTokenPairs none).filter (SoroswapClient.pairMatchesToken "") := by
  decide

/-- C8, amended: for every non-empty filter token the mock pair list is
exactly the unfiltered catalog filtered by symbol/address match, and for
every filter argument whatsoever the result is a sublist of the
unfiltered catalog. -/
theorem getMockTokenPairs_filter_subset :
    (∀ t : String, t ≠ "" →
      SoroswapClient.getMockTokenPairs (some t) =
        (SoroswapClient.getMockTokenPairs none).filter (SoroswapClient.pairMatchesToken t))
    ∧ ∀ t : Option String,
        (SoroswapClient.getMockTokenPairs t).Sublist (SoroswapClient.getMockTokenPairs none) := by
  constructor
  · intro t ht
    simp [SoroswapClient.getMockTokenPairs, ht]
  · intro t
    match t with
    | none => exact List.Sublist.refl _
    | some s =>
      unfold SoroswapClient.getMockTokenPairs
      by_cases hs : s = ""
      · simp [hs]
      · simp only [hs, if_false]
        exact List.filter_sublist _

/-- C8 witness: the `XLM` filter selects exactly the matching pairs. -/
theorem getMockTokenPairs_filter_subset_witness :
    SoroswapClient.getMockTokenPairs (some "XLM") =
      (SoroswapClient.getMockTokenPairs none).filter (SoroswapClient.pairMatchesToken "XLM") :=
  getMockTokenPairs_filter_subset.1 "XLM" (by decide)

/-- C5: the mock deposit projection's yield is
`depositAmount * apy / 100 * multiplier` with multiplier 1 for `1y`,
0.5 for `6m` and 0.25 otherwise, and the `1y` projected yield is exactly
double the `6m` one for the same vault and amount. -/
theorem getMockDepositCalculation_projection (va amt tf : String) (q a : ℚ)
    (hq : jsParseFloat amt = some q)
    (ha : jsParseFloat (DefindexClient.getMockVaultDetails va).apy = some a) :
    (DefindexClient.getMockDepositCalculation va amt tf).projectedYield =
        jsNumToString (DefindexClient.projectedYieldNum va amt tf)
    ∧ DefindexClient.projectedYieldNum va amt tf =
        some (q * a / 100 * (if tf = "1y" then 1 else if tf = "6m" then 1 / 2 else 1 / 4))
    ∧ DefindexClient.projectedYieldNum va amt "1y" =
        jsMul (some 2) (DefindexClient.projectedYieldNum va amt "6m") := by
  refine ⟨rfl, ?_, ?_⟩
  · unfold DefindexClient.projectedYieldNum DefindexClient.apyMultiplier
    rw [hq, ha]
    simp only [jsMul, jsDiv]
    norm_num
  · unfold DefindexClient.projectedYieldNum DefindexClient.apyMultiplier
    rw [hq, ha]
    simp only [jsMul, jsDiv]
    norm_num
    rw [if_neg (show ¬("6m" = "1y") by decide)]
    ring

/-- C5 witness: a 1000 deposit in the low-risk vault projects a yield of
85 over one year, exactly double the six-month projection. -/
theorem getMockDepositCalculation_projection_witness :
    DefindexClient.projectedYieldNum
        "CBQHNAXSI55GX2GN6D67GK7BHKQKQHX4J5DYKEN6PKVP7DTCMMY7XAQD" "1000" "1y" = some 85
    ∧ DefindexClient.projectedYieldNum
        "CBQHNAXSI55GX2GN6D67GK7BHKQKQHX4J5DYKEN6PKVP7DTCMMY7XAQD" "1000" "1y" =
      jsMul (some 2) (DefindexClient.projectedYieldNum
        "CBQHNAXSI55GX2GN6D67GK7BHKQKQHX4J5DYKEN6PKVP7DTCMMY7XAQD" "1000" "6m") := by
  have hq : jsParseFloat "1000" = some 1000 := by
    simp +decide [jsParseFloat, parseDecCore, parseSigned, digitsToNat, digitVal]
  have hapy : (DefindexClient.getMockVaultDetails
      "CBQHNAXSI55GX2GN6D67GK7BHKQKQHX4J5DYKEN6PKVP7DTCMMY7XAQD").apy = "8.5" := rfl
  have ha : jsParseFloat (DefindexClient.getMockVaultDetails
      "CBQHNAXSI55GX2GN6D67GK7BHKQKQHX4J5DYKEN6PKVP7DTCMMY7XAQD").apy = some (17 / 2) := by
    rw [hapy]
    simp +decide [jsParseFloat, parseDecCore, parseSigned, digitsToNat, digitVal]
    norm_num
  have h := getMockDepositCalculation_projection
    "CBQHNAXSI55GX2GN6D67GK7BHKQKQHX4J5DYKEN6PKVP7DTCMMY7XAQD" "1000" "1y" 1000 (17 / 2) hq ha
  constructor
  · rw [h.2.1]
    norm_num
  · exact h.2.2

/-- C6, corrected part: strict monotonicity of the mock quote fails — at
`amountIn = "0"` the minimum received for slippage `1` equals (is not
strictly below) the one for the smaller slippage `0.5`. -/
theorem getMockSwapQuote_strict_mono_fails :
    (SoroswapClient.getMockSwapQuote (some "native")
        (some "CAQCFVLOBK5GIULPNZRGATJJMIZL5BSP7X5YJNU4TKDGSR3RCNBFIW7A") (some "0") "1").minimumReceived =
      (SoroswapClient.getMockSwapQuote (some "native")
        (some "CAQCFVLOBK5GIULPNZRGATJJMIZL5BSP7X5YJNU4TKDGSR3RCNBFIW7A") (some "0") "0.5").minimumReceived := by
  have h0 : jsParseFloat "0" = some 0 := by
    simp +decide [jsParseFloat, parseDecCore, parseSigned, digitsToNat, digitVal]
  have h1 : jsParseFloat "1" = some 1 := by
    simp +decide [jsParseFloat, parseDecCore, parseSigned, digitsToNat, digitVal]
  have h05 : jsParseFloat "0.5" = some (1 / 2) := by
    simp +decide [jsParseFloat, parseDecCore, parseSigned, digitsToNat, digitVal]
    norm_num
  simp only [SoroswapClient.getMockSwapQuote, jsParseFloatOpt, h0, h1, h05, jsMul, jsSub, jsDiv]
  norm_num

theorem mockQuote_amountOut_val (tIn tOut : Option String) (x s : String) (qx : ℚ)
    (hx : jsParseFloat x = some qx) :
    jsParseFloat ((SoroswapClient.getMockSwapQuote tIn tOut (some x) s).amountOut) =
      some (toFixedQ 6 (qx * (12 / 100) * (997 / 1000))) := by
  simp only [SoroswapClient.getMockSwapQuote, jsParseFloatOpt, hx, jsMul]
  rw [jsParseFloat_toFixedStr]
  rfl

theorem mockQuote_minRecv_val (tIn tOut : Option String) (x s : String) (qx sq : ℚ)
    (hx : jsParseFloat x = some qx) (hs : jsParseFloat s = some sq) :
    jsParseFloat ((SoroswapClient.getMockSwapQuote tIn tOut (some x) s).minimumReceived) =
      some (toFixedQ 6 (qx * (12 / 100) * (997 / 1000) * (1 - sq / 100))) := by
  simp only [SoroswapClient.getMockSwapQuote, jsParseFloatOpt, hx, hs, jsMul, jsSub, jsDiv]
  rw [if_neg (by norm_num : ¬((100 : ℚ) = 0))]
  rw [jsParseFloat_toFixedStr]
  rfl

/-- C6, amended: the mock quote's `amountOut` and `minimumReceived` are
non-decreasing in the amount (for `minimumReceived` assuming the parsed
slippage is at most 100), and `minimumReceived` is non-increasing in the
slippage for a non-negative amount; strictness can be lost to the
`toFixed(6)` rounding and at amount zero. -/
theorem getMockSwapQuote_monotone :
    (∀ (tIn tOut : Option String) (a1 a2 s : String) (q1 q2 sq : ℚ),
      jsParseFloat a1 = some q1 → jsParseFloat a2 = some q2 → q1 ≤ q2 →
      jsParseFloat s = some sq → sq ≤ 100 →
      jsGeb (jsParseFloat ((SoroswapClient.getMockSwapQuote tIn tOut (some a2) s).amountOut))
          (jsParseFloat ((SoroswapClient.getMockSwapQuote tIn tOut (some a1) s).amountOut)) = true
      ∧ jsGeb (jsParseFloat ((SoroswapClient.getMockSwapQuote tIn tOut (some a2) s).minimumReceived))
          (jsParseFloat ((SoroswapClient.getMockSwapQuote tIn tOut (some a1) s).minimumReceived)) = true)
    ∧ (∀ (tIn tOut : Option String) (a s1 s2 : String) (q sq1 sq2 : ℚ),
      jsParseFloat a = some q → 0 ≤ q →
      jsParseFloat s1 = some sq1 → jsParseFloat s2 = some sq2 → sq1 ≤ sq2 →
      jsGeb (jsParseFloat ((SoroswapClient.getMockSwapQuote tIn tOut (some a) s1).minimumReceived))
          (jsParseFloat ((SoroswapClient.getMockSwapQuote tIn tOut (some a) s2).minimumReceived)) = true) := by
  constructor
  · intro tIn tOut a1 a2 s q1 q2 sq h1 h2 hle hs hsle
    constructor
    · rw [mockQuote_amountOut_val tIn tOut a1 s q1 h1, mockQuote_amountOut_val tIn tOut a2 s q2 h2]
      simp only [jsGeb, decide_eq_true_eq]
      exact toFixedQ_mono 6 (by nlinarith)
    · rw [mockQuote_minRecv_val tIn tOut a1 s q1 sq h1 hs, mockQuote_minRecv_val tIn tOut a2 s q2 sq h2 hs]
      simp only [jsGeb, decide_eq_true_eq]
      refine toFixedQ_mono 6 ?_
      exact mul_le_mul_of_nonneg_right (by nlinarith) (by linarith)
  · intro tIn tOut a s1 s2 q sq1 sq2 hq hq0 hs1 hs2 hsle
    rw [mockQuote_minRecv_val tIn tOut a s1 q sq1 hq hs1, mockQuote_minRecv_val tIn tOut a s2 q sq2 hq hs2]
    simp only [jsGeb, decide_eq_true_eq]
    refine toFixedQ_mono 6 ?_
    exact mul_le_mul_of_nonneg_left (by linarith)
      (mul_nonneg (mul_nonneg hq0 (by norm_num)) (by norm_num))

/-- C6 witness: concrete non-strict orderings — larger amount gives at
least as large an output, larger slippage at most as large a minimum. -/
theorem getMockSwapQuote_monotone_witness :
    jsGeb (jsParseFloat ((SoroswapClient.getMockSwapQuote (some "native") (some "USDC")
          (some "2") "0.5").amountOut))
        (jsParseFloat ((SoroswapClient.getMockSwapQuote (some "native") (some "USDC")
          (some "1") "0.5").amountOut)) = true
    ∧ jsGeb (jsParseFloat ((SoroswapClient.getMockSwapQuote (some "native") (some "USDC")
          (some "1000") "0.5").minimumReceived))
        (jsParseFloat ((SoroswapClient.getMockSwapQuote (some "native") (some "USDC")
          (some "1000") "1").minimumReceived)) = true := by
  have h1 : jsParseFloat "1" = some 1 := by
    simp +decide [jsParseFloat, parseDecCore, parseSigned, digitsToNat, digitVal]
  have h2 : jsParseFloat "2" = some 2 := by
    simp +decide [jsParseFloat, parseDecCore, parseSigned, digitsToNat, digitVal]
  have h05 : jsParseFloat "0.5" = some (1 / 2) := by
    simp +decide [jsParseFloat, parseDecCore, parseSigned, digitsToNat, digitVal]
    norm_num
  have h1000 : jsParseFloat "1000" = some 1000 := by
    simp +decide [jsParseFloat, parseDecCore, parseSigned, digitsToNat, digitVal]
  exact ⟨(getMockSwapQuote_monotone.1 (some "native") (some "USDC") "1" "2" "0.5" 1 2 (1 / 2)
      h1 h2 (by norm_num) h05 (by norm_num)).1,
    getMockSwapQuote_monotone.2 (some "native") (some "USDC") "1000" "0.5" "1" 1000 (1 / 2) 1
      h1000 (by norm_num) h05 h1 (by norm_num)⟩

/-- C9, corrected part: with one position worth 3 and PnL 1, the reported
`totalPnlPercent` is the `toFixed(2)` string `33.33`, which is not equal
to `totalPnl / totalValue * 100 = 100/3` — the claim's exact equality
fails because of the 2-decimal rounding. -/
theorem totalPnlPercent_exact_fails :
    jsParseFloat ((StellarSwapMCPServer.combinedSummary
        [{ pairAddress := "P", lpTokenBalance := "1", value := some "3", pnl := some "1" }]
        []).totalPnlPercent) ≠
      jsMul (jsDiv (StellarSwapMCPServer.combinedSummary
          [{ pairAddress := "P", lpTokenBalance := "1", value := some "3", pnl := some "1" }]
          []).totalPnl
        (StellarSwapMCPServer.combinedSummary
          [{ pairAddress := "P", lpTokenBalance := "1", value := some "3", pnl := some "1" }]
          []).totalValue) (some 100) := by
  have h3 : jsParseFloat "3" = some 3 := by
    simp +decide [jsParseFloat, parseDecCore, parseSigned, digitsToNat, digitVal]
  have h1 : jsParseFloat "1" = some 1 := by
    simp +decide [jsParseFloat, parseDecCore, parseSigned, digitsToNat, digitVal]
  have htv : (StellarSwapMCPServer.combinedSummary
      [{ pairAddress := "P", lpTokenBalance := "1", value := some "3", pnl := some "1" }]
      []).totalValue = some 3 := by
    simp +decide [StellarSwapMCPServer.combinedSummary, jsOrStr, h3, jsAdd]
  have htp : (StellarSwapMCPServer.combinedSummary
      [{ pairAddress := "P", lpTokenBalance := "1", value := some "3", pnl := some "1" }]
      []).totalPnl = some 1 := by
    simp +decide [StellarSwapMCPServer.combinedSummary, jsOrStr, h1, jsAdd]
  have hg : jsGt0 (StellarSwapMCPServer.combinedSummary
      [{ pairAddress := "P", lpTokenBalance := "1", value := some "3", pnl := some "1" }]
      []).totalValue = true := by
    rw [htv]
    simp [jsGt0]
  have hpct0 : (StellarSwapMCPServer.combinedSummary
      [{ pairAddress := "P", lpTokenBalance := "1", value := some "3", pnl := some "1" }]
      []).totalPnlPercent =
      if jsGt0 (StellarSwapMCPServer.combinedSummary
          [{ pairAddress := "P", lpTokenBalance := "1", value := some "3", pnl := some "1" }]
          []).totalValue then
        toFixedStr 2 (jsMul (jsDiv (StellarSwapMCPServer.combinedSummary
            [{ pairAddress := "P", lpTokenBalance := "1", value := some "3", pnl := some "1" }]
            []).totalPnl
          (StellarSwapMCPServer.combinedSummary
            [{ pairAddress := "P", lpTokenBalance := "1", value := some "3", pnl := some "1" }]
            []).totalValue) (some 100))
      else "0" := rfl
  have hpct : (StellarSwapMCPServer.combinedSummary
      [{ pairAddress := "P", lpTokenBalance := "1", value := some "3", pnl := some "1" }]
      []).totalPnlPercent =
      toFixedStr 2 (jsMul (jsDiv (StellarSwapMCPServer.combinedSummary
          [{ pairAddress := "P", lpTokenBalance := "1", value := some "3", pnl := some "1" }]
          []).totalPnl
        (StellarSwapMCPServer.combinedSummary
          [{ pairAddress := "P", lpTokenBalance := "1", value := some "3", pnl := some "1" }]
          []).totalValue) (some 100)) := by
    rw [hpct0, if_pos hg]
  rw [hpct, htv, htp, jsParseFloat_toFixedStr]
  simp only [jsDiv, jsMul, if_neg (by norm_num : ¬((3 : ℚ) = 0)), Option.map]
  intro hcontra
  have heq : toFixedQ 2 (1 / 3 * 100) = 1 / 3 * 100 := by
    exact Option.some.inj hcontra
  rw [toFixedQ, round_eq] at heq
  norm_num at heq

/-- C9, amended: when `totalValue` is strictly positive the reported
`totalPnlPercent` denotes `totalPnl / totalValue * 100` rounded to two
decimal places (`toFixed(2)`), and whenever the guard `totalValue > 0`
fails — in particular at `totalValue = 0` — it is the string `0`, never a
`NaN` or infinity rendering. -/
theorem totalPnlPercent_rounded_guarded (sps : List SorosPosition) (dps : List DefindexPosition) :
    (jsGt0 (StellarSwapMCPServer.combinedSummary sps dps).totalValue = true →
      jsParseFloat (StellarSwapMCPServer.combinedSummary sps dps).totalPnlPercent =
        Option.map (toFixedQ 2)
          (jsMul (jsDiv (StellarSwapMCPServer.combinedSummary sps dps).totalPnl
            (StellarSwapMCPServer.combinedSummary sps dps).totalValue) (some 100)))
    ∧ (jsGt0 (StellarSwapMCPServer.combinedSummary sps dps).totalValue = false →
      (StellarSwapMCPServer.combinedSummary sps dps).totalPnlPercent = "0") := by
  have hpct : (StellarSwapMCPServer.combinedSummary sps dps).totalPnlPercent =
      if jsGt0 (StellarSwapMCPServer.combinedSummary sps dps).totalValue then
        toFixedStr 2 (jsMul (jsDiv (StellarSwapMCPServer.combinedSummary sps dps).totalPnl
          (StellarSwapMCPServer.combinedSummary sps dps).totalValue) (some 100))
      else "0" := rfl
  constructor
  · intro h
    rw [hpct, if_pos h, jsParseFloat_toFixedStr]
  · intro h
    rw [hpct, if_neg (by simp [h])]

/-- C9 witness: the guarded formula at one concrete portfolio, and the
`0` string at an empty portfolio. -/
theorem totalPnlPercent_rounded_guarded_witness :
    jsParseFloat ((StellarSwapMCPServer.combinedSummary
        [{ pairAddress := "Q", lpTokenBalance := "1", value := some "4", pnl := some "1" }]
        []).totalPnlPercent) =
      Option.map (toFixedQ 2)
        (jsMul (jsDiv (StellarSwapMCPServer.combinedSummary
            [{ pairAddress := "Q", lpTokenBalance := "1", value := some "4", pnl := some "1" }]
            []).totalPnl
          (StellarSwapMCPServer.combinedSummary
            [{ pairAddress := "Q", lpTokenBalance := "1", value := some "4", pnl := some "1" }]
            []).totalValue) (some 100))
    ∧ (StellarSwapMCPServer.combinedSummary [] []).totalPnlPercent = "0" := by
  have h4 : jsParseFloat "4" = some 4 := by
    simp +decide [jsParseFloat, parseDecCore, parseSigned, digitsToNat, digitVal]
  have htv : (StellarSwapMCPServer.combinedSummary
      [{ pairAddress := "Q", lpTokenBalance := "1", value := some "4", pnl := some "1" }]
      []).totalValue = some 4 := by
    simp +decide [StellarSwapMCPServer.combinedSummary, jsOrStr, h4, jsAdd]
  constructor
  · refine (totalPnlPercent_rounded_guarded _ _).1 ?_
    rw [htv]
    simp [jsGt0]
  · refine (totalPnlPercent_rounded_guarded _ _).2 ?_
    simp [StellarSwapMCPServer.combinedSummary, jsAdd, jsGt0]

/-- C1: every recognised tool name produces a result whose text is a
rendered JSON document; an unrecognised name produces `isError = true`
with a non-empty message, and the dispatcher (being a total function)
never lets the failure escape. -/
theorem invoke_json_or_error (env : Env) (name : String) (args : ToolArgs) :
    (name ∈ StellarSwapMCPServer.toolNames →
      IsJsonText ((StellarSwapMCPServer.invoke env name args).text))
    ∧ (name ∉ StellarSwapMCPServer.toolNames →
      (StellarSwapMCPServer.invoke env name args).isError = true
      ∧ (StellarSwapMCPServer.invoke env name args).text ≠ "") := by
  constructor
  · intro hmem
    simp only [StellarSwapMCPServer.toolNames, List.mem_cons, List.not_mem_nil, or_false] at hmem
    rcases hmem with rfl | rfl | rfl | rfl | rfl | rfl | rfl | rfl <;>
      · simp +decide only [StellarSwapMCPServer.invoke, if_true, if_false]
        exact ⟨_, rfl⟩
  · intro hmem
    simp only [StellarSwapMCPServer.toolNames, List.mem_cons, List.not_mem_nil, or_false,
      not_or] at hmem
    obtain ⟨h1, h2, h3, h4, h5, h6, h7, h8⟩ := hmem
    simp only [StellarSwapMCPServer.invoke, h1, h2, h3, h4, h5, h6, h7, h8, if_false]
    refine ⟨trivial, fun hcontra => ?_⟩
    have hlen := congrArg String.length hcontra
    rw [String.length_append] at hlen
    have e1 : "Error: Unknown tool: ".length = 21 := rfl
    have e2 : "".length = 0 := rfl
    omega

/-- C1 witness: a recognised name yields JSON text, an unrecognised one an
error result with a non-empty message. -/
theorem invoke_json_or_error_witness :
    IsJsonText ((StellarSwapMCPServer.invoke {} "soroswap_get_token_pairs" {}).text)
    ∧ (StellarSwapMCPServer.invoke {} "not_a_tool" {}).isError = true
    ∧ (StellarSwapMCPServer.invoke {} "not_a_tool" {}).text ≠ "" :=
  ⟨(invoke_json_or_error {} "soroswap_get_token_pairs" {}).1 (by decide),
    (invoke_json_or_error {} "not_a_tool" {}).2 (by decide)⟩

/-- C2: when the primary pairs call fails the operation substitutes the
mock catalog and still returns `isError = false`; conversely an
`isError = true` result only ever arises from an unrecognised name (mock
generation, being total here, cannot fail). -/
theorem fallback_not_error :
    (∀ (env : Env) (args : ToolArgs), env.pairsApi = none →
      (StellarSwapMCPServer.invoke env "soroswap_get_token_pairs" args).isError = false
      ∧ SoroswapClient.getTokenPairs env.pairsApi args.token =
          SoroswapClient.getMockTokenPairs args.token)
    ∧ ∀ (env : Env) (name : String) (args : ToolArgs),
        (StellarSwapMCPServer.invoke env name args).isError = true →
        name ∉ StellarSwapMCPServer.toolNames := by
  constructor
  · intro env args hapi
    refine ⟨rfl, ?_⟩
    rw [hapi]
    rfl
  · intro env name args hE hmem
    simp only [StellarSwapMCPServer.toolNames, List.mem_cons, List.not_mem_nil, or_false] at hmem
    rcases hmem with rfl | rfl | rfl | rfl | rfl | rfl | rfl | rfl <;>
      simp +decide only [StellarSwapMCPServer.invoke, if_true, if_false] at hE

/-- C2 witness: with no backend available (the default environment), the
pairs tool returns a non-error result built from the mock catalog. -/
theorem fallback_not_error_witness :
    (StellarSwapMCPServer.invoke {} "soroswap_get_token_pairs" {}).isError = false
    ∧ SoroswapClient.getTokenPairs (Env.pairsApi {}) (ToolArgs.token {}) =
        SoroswapClient.getMockTokenPairs (ToolArgs.token {}) :=
  fallback_not_error.1 {} {} rfl
